import Mathlib

/-!
Shallow embedding of `src/satel_integra_ext/simulator.py` (class
`SatelIntegraEmulator`).  Python dictionaries are modelled as
insertion-ordered association lists, the asyncio writers as client
identifiers (`Nat`), and a write to a client as an entry appended to a
delivery log.  A write that raises is modelled by a failure predicate
`wfail : Nat → Bool` on clients.  The single random draw of
`random.uniform(21, 24)` is threaded as an explicit rational parameter.
The helpers `SatelMessage.list_set_bits` and `partition_bytes` live in the
external `satel_integra` package (not part of this repository); they are
modelled from the spec's BitsetCodec contract.
-/

/-- Command identifiers used by the simulator (`SatelCommand` members that
`simulator.py` references, from the external `satel_integra` package). -/
inductive SatelCommand where
  | RESULT
  | DEVICE_INFO
  | ARMED_MODE0
  | ARMED_MODE1
  | ARMED_MODE2
  | ARMED_MODE3
  | CMD_START_MONITORING
  | CMD_ARM_MODE_0
  | CMD_ARM_MODE_1
  | CMD_ARM_MODE_2
  | CMD_ARM_MODE_3
  | CMD_DISARM
  | CMD_OUTPUT_ON
  | CMD_OUTPUT_OFF
  | CMD_READ_ZONE_TEMP
  | ZONE_TEMP
  | OUTPUT_STATE
deriving DecidableEq, Repr

/-- Partition states (`AlarmState` members referenced by `simulator.py`). -/
inductive AlarmState where
  | DISARMED
  | ARMED_MODE0
  | ARMED_MODE1
  | ARMED_MODE2
  | ARMED_MODE3
deriving DecidableEq, Repr

/-- A protocol message: command plus payload bytes (`SatelMessage` with its
`cmd` and `msg_data` fields; frame encoding is injective per the spec, so the
delivery log records messages rather than raw frames). -/
structure SatelMessage where
  cmd : SatelCommand
  msg_data : List Nat
deriving DecidableEq, Repr

/-- Modelled from the spec: BitsetCodec bit extraction, most-significant-bit
first within each byte (`j` is the 0-based scan position inside one byte). -/
def testBitMSB (b : Nat) (j : Nat) : Bool :=
  b / 2 ^ (7 - j) % 2 == 1

/-- Modelled from the spec: `BitsetCodec.decode_indices(payload, skip_bytes,
bit_count)` — the external `satel_integra` package's
`SatelMessage.list_set_bits` is not in this repository.  Scans `length` bits
starting at byte offset `offset`, most-significant-bit first within each
byte, the first scanned bit mapping to index 1; bytes beyond the payload read
as zero (Python slicing truncates). -/
def SatelMessage.list_set_bits (m : SatelMessage) (offset length : Nat) : List Nat :=
  (List.range length).filterMap fun i =>
    if testBitMSB (m.msg_data.getD (offset + i / 8) 0) (i % 8) then some (i + 1) else none

/-- Modelled from the spec: `BitsetCodec.encode_indices(indices, byte_count)`
— the external `satel_integra` package's `partition_bytes` is not in this
repository.  Produces `length` bytes with the bit for each listed 1-based
index set, most-significant-bit first within each byte. -/
def partition_bytes (items : List Nat) (length : Nat) : List Nat :=
  (List.range length).map fun bi =>
    (List.range 8).foldl (fun acc j => if 8 * bi + j + 1 ∈ items then acc + 2 ^ (7 - j) else acc) 0

/-- The constant `RESPONSE_OK = SatelMessage(SatelCommand.RESULT, b'\x00')`. -/
def RESPONSE_OK : SatelMessage :=
  SatelMessage.mk SatelCommand.RESULT [0]

/-- The constant `RESPONSE_DEVICE_INFO` (19 payload bytes). -/
def RESPONSE_DEVICE_INFO : SatelMessage :=
  SatelMessage.mk SatelCommand.DEVICE_INFO
    [1, 1, 0, 82, 117, 99, 104, 32, 119, 105, 97, 116, 114, 111, 108, 97, 112, 32, 32]

/-- The module-level dict `ALARMSTATE_TO_CMD`; it has no entry for
`DISARMED`, so lookup there is a `KeyError` (`none`). -/
def ALARMSTATE_TO_CMD : AlarmState → Option SatelCommand
  | AlarmState.ARMED_MODE0 => some SatelCommand.ARMED_MODE0
  | AlarmState.ARMED_MODE1 => some SatelCommand.ARMED_MODE1
  | AlarmState.ARMED_MODE2 => some SatelCommand.ARMED_MODE2
  | AlarmState.ARMED_MODE3 => some SatelCommand.ARMED_MODE3
  | AlarmState.DISARMED => none

/-- Python dict lookup with a default (insertion-ordered association list). -/
def dictGetD {α : Type} : List (Nat × α) → Nat → α → α
  | [], _, dflt => dflt
  | kv :: rest, k, dflt => if kv.1 = k then kv.2 else dictGetD rest k dflt

/-- Python dict assignment `d[k] = v`: updates the existing key in place
(keys in this development are unique), appends at the end otherwise —
insertion order is preserved, as in Python 3.7+. -/
def dictSet {α : Type} : List (Nat × α) → Nat → α → List (Nat × α)
  | [], k, v => [(k, v)]
  | kv :: rest, k, v => if kv.1 = k then (k, v) :: rest else kv :: dictSet rest k v

/-- Python dict key view, in insertion order. -/
def dictKeys {α : Type} (d : List (Nat × α)) : List Nat :=
  d.map Prod.fst

/-- The mutable device model created by `__init__`: 32 zones, 32 outputs and
4 partitions, all initially off / `DISARMED`. -/
structure DeviceState where
  zones : List (Nat × Bool)
  outputs : List (Nat × Bool)
  partitions : List (Nat × AlarmState)
deriving DecidableEq, Repr

/-- The device state built in `__init__`. -/
def initialState : DeviceState where
  zones := (List.range 32).map fun i => (i + 1, false)
  outputs := (List.range 32).map fun i => (i + 1, false)
  partitions := (List.range 4).map fun i => (i + 1, AlarmState.DISARMED)

/-- Python truncating conversion `int(q)` (toward zero). -/
def pyInt (q : ℚ) : ℤ :=
  if 0 ≤ q then ⌊q⌋ else ⌈q⌉

/-- List comprehension in `broadcast_outputs`:
`[i for i, state in self.outputs.items() if state]`. -/
def activeOutputs (st : DeviceState) : List Nat :=
  (st.outputs.filter fun kv => kv.2).map Prod.fst

/-- List comprehension in `broadcast_partitions`:
`[i for i, part_state in self.partitions.items() if part_state==state]`. -/
def partitionsWithState (st : DeviceState) (a : AlarmState) : List Nat :=
  (st.partitions.filter fun kv => decide (kv.2 = a)).map Prod.fst

/-- One pass of the `for writer in ...: writer.write(frame)` loop inside
`send_response`.  A client whose write raises (`wfail w`) aborts the whole
loop — `send_response` has no per-client exception handler — so the
remaining targets receive nothing; the `Bool` reports whether the loop
raised. -/
def writeSeq (wfail : Nat → Bool) : List Nat → SatelMessage → List (Nat × SatelMessage) × Bool
  | [], _ => ([], false)
  | w :: ws, m =>
    if wfail w then ([], true)
    else
      let r := writeSeq wfail ws m
      ((w, m) :: r.1, r.2)

/-- The method `send_response(message, client=None)`: unicast when a client
is given (`[client] if client else self.clients`), otherwise a write to
every registered client. -/
def send_response (wfail : Nat → Bool) (clients : List Nat) (message : SatelMessage)
    (client : Option Nat) : List (Nat × SatelMessage) × Bool :=
  writeSeq wfail (match client with | some c => [c] | none => clients) message

/-- Result of running one handler: the device state after whatever
mutations the handler performed before returning or raising, the writes
actually delivered, and whether the handler raised. -/
structure HandlerResult where
  st : DeviceState
  sent : List (Nat × SatelMessage)
  err : Bool
deriving DecidableEq, Repr

/-- The method `broadcast_outputs`: an `OUTPUT_STATE` message carrying the
bitmask of the enabled outputs, broadcast to every client (the keyword
construction `SatelMessage(..., outputs=...)` is modelled from the spec's
`encode_indices`, 4 bytes for up to 32 items as in `notify_state_change`). -/
def broadcast_outputs (wfail : Nat → Bool) (clients : List Nat) (st : DeviceState) :
    List (Nat × SatelMessage) × Bool :=
  send_response wfail clients
    (SatelMessage.mk SatelCommand.OUTPUT_STATE (partition_bytes (activeOutputs st) 4)) none

/-- The method `broadcast_partitions(state)`: the partitions currently in
`state`, under the command `ALARMSTATE_TO_CMD[state]` (a `KeyError` — an
error with nothing sent — when the dict has no entry for `state`). -/
def broadcast_partitions (wfail : Nat → Bool) (clients : List Nat) (st : DeviceState)
    (state : AlarmState) : List (Nat × SatelMessage) × Bool :=
  match ALARMSTATE_TO_CMD state with
  | none => ([], true)
  | some c =>
    send_response wfail clients
      (SatelMessage.mk c (partition_bytes (partitionsWithState st state) 4)) none

/-- The handler `start_monitoring`: OK unicast to the sender, then the
current outputs and the current `ARMED_MODE0` partitions broadcast. -/
def start_monitoring (wfail : Nat → Bool) (clients : List Nat) (st : DeviceState)
    (writer : Nat) : HandlerResult :=
  let r1 := send_response wfail clients RESPONSE_OK (some writer)
  if r1.2 then ⟨st, r1.1, true⟩
  else
    let r2 := broadcast_outputs wfail clients st
    if r2.2 then ⟨st, r1.1 ++ r2.1, true⟩
    else
      let r3 := broadcast_partitions wfail clients st AlarmState.ARMED_MODE0
      ⟨st, r1.1 ++ r2.1 ++ r3.1, r3.2⟩

/-- The handler `device_info`: the static device-info payload unicast to the
sender. -/
def device_info (wfail : Nat → Bool) (clients : List Nat) (st : DeviceState)
    (writer : Nat) : HandlerResult :=
  let r := send_response wfail clients RESPONSE_DEVICE_INFO (some writer)
  ⟨st, r.1, r.2⟩

/-- The handler `arm`: decodes the partition bitmask past the 8-byte access
code, stores `ARMED_MODE0` for each decoded partition (the literal the code
uses for every `CMD_ARM_MODE_k`), broadcasts OK to all clients — `arm` never
receives the sender, so `send_response` runs with `client=None` — then
broadcasts the `ARMED_MODE0` partitions. -/
def arm (wfail : Nat → Bool) (clients : List Nat) (st : DeviceState)
    (m : SatelMessage) : HandlerResult :=
  let parts := m.list_set_bits 8 4
  let st' := { st with
    partitions := parts.foldl (fun d p => dictSet d p AlarmState.ARMED_MODE0) st.partitions }
  let r1 := send_response wfail clients RESPONSE_OK none
  if r1.2 then ⟨st', r1.1, true⟩
  else
    let r2 := broadcast_partitions wfail clients st' AlarmState.ARMED_MODE0
    ⟨st', r1.1 ++ r2.1, r2.2⟩

/-- The handler `disarm`: like `arm` but stores `DISARMED`. -/
def disarm (wfail : Nat → Bool) (clients : List Nat) (st : DeviceState)
    (m : SatelMessage) : HandlerResult :=
  let parts := m.list_set_bits 8 4
  let st' := { st with
    partitions := parts.foldl (fun d p => dictSet d p AlarmState.DISARMED) st.partitions }
  let r1 := send_response wfail clients RESPONSE_OK none
  if r1.2 then ⟨st', r1.1, true⟩
  else
    let r2 := broadcast_partitions wfail clients st' AlarmState.ARMED_MODE0
    ⟨st', r1.1 ++ r2.1, r2.2⟩

/-- The handler `set_output`: decodes the output bitmask past the 8-byte
access code, sets each decoded output to on for `CMD_OUTPUT_ON` and off for
`CMD_OUTPUT_OFF`, broadcasts OK to all clients, then broadcasts the full
output state. -/
def set_output (wfail : Nat → Bool) (clients : List Nat) (st : DeviceState)
    (m : SatelMessage) : HandlerResult :=
  let outs := m.list_set_bits 8 32
  let state := decide (m.cmd = SatelCommand.CMD_OUTPUT_ON)
  let st' := { st with
    outputs := outs.foldl (fun d o => dictSet d o state) st.outputs }
  let r1 := send_response wfail clients RESPONSE_OK none
  if r1.2 then ⟨st', r1.1, true⟩
  else
    let r2 := broadcast_outputs wfail clients st'
    ⟨st', r1.1 ++ r2.1, r2.2⟩

/-- The handler `read_temperature`: `message.msg_data[0]` raises on an empty
payload; otherwise a `ZONE_TEMP` message `[zone, 0, int((temp + 55) * 2)]`
is unicast to the sender.  The draw `random.uniform(21, 24)` is the explicit
parameter `temp`. -/
def read_temperature (wfail : Nat → Bool) (temp : ℚ) (clients : List Nat)
    (st : DeviceState) (m : SatelMessage) (writer : Nat) : HandlerResult :=
  match m.msg_data with
  | [] => ⟨st, [], true⟩
  | zone :: _ =>
    let response := SatelMessage.mk SatelCommand.ZONE_TEMP
      [zone, 0, (pyInt ((temp + 55) * 2)).toNat]
    let r := send_response wfail clients response (some writer)
    ⟨st, r.1, r.2⟩

/-- The body of `process_command` before its `except` clause: the `if/elif`
dispatch chain.  An unknown command is logged and ignored (no error). -/
def dispatch (wfail : Nat → Bool) (temp : ℚ) (clients : List Nat) (st : DeviceState)
    (m : SatelMessage) (writer : Nat) : HandlerResult :=
  match m.cmd with
  | SatelCommand.CMD_START_MONITORING => start_monitoring wfail clients st writer
  | SatelCommand.DEVICE_INFO => device_info wfail clients st writer
  | SatelCommand.CMD_ARM_MODE_0 => arm wfail clients st m
  | SatelCommand.CMD_ARM_MODE_1 => arm wfail clients st m
  | SatelCommand.CMD_ARM_MODE_2 => arm wfail clients st m
  | SatelCommand.CMD_ARM_MODE_3 => arm wfail clients st m
  | SatelCommand.CMD_DISARM => disarm wfail clients st m
  | SatelCommand.CMD_OUTPUT_ON => set_output wfail clients st m
  | SatelCommand.CMD_OUTPUT_OFF => set_output wfail clients st m
  | SatelCommand.CMD_READ_ZONE_TEMP => read_temperature wfail temp clients st m writer
  | _ => ⟨st, [], false⟩

/-- The method `process_command`: the dispatch chain inside
`try ... except Exception`, so a handler error is logged and swallowed; the
state mutations and writes performed before the error persist. -/
def process_command (wfail : Nat → Bool) (temp : ℚ) (clients : List Nat)
    (st : DeviceState) (m : SatelMessage) (writer : Nat) :
    DeviceState × List (Nat × SatelMessage) :=
  let r := dispatch wfail temp clients st m writer
  (r.st, r.sent)

/-- Whole-emulator state: the registered client set (as an ordered list),
the device state, the cumulative delivery log and the closed sockets. -/
structure SimState where
  clients : List Nat
  st : DeviceState
  sent : List (Nat × SatelMessage)
  closed : List Nat
deriving DecidableEq, Repr

/-- Python `set.add`: no duplicate is created. -/
def setAdd (l : List Nat) (x : Nat) : List Nat :=
  if x ∈ l then l else l ++ [x]

/-- One iteration of the `handle_client` receive loop on a decoded message:
`process_command` runs and its effects are folded into the emulator state. -/
def stepMsg (wfail : Nat → Bool) (temp : ℚ) (sim : SimState) (writer : Nat)
    (m : SatelMessage) : SimState :=
  let r := process_command wfail temp sim.clients sim.st m writer
  { sim with st := r.1, sent := sim.sent ++ r.2 }

/-- The `while True` receive loop of `handle_client` over a stream of read
results: a read/decode error (`Except.error`) raises out of the loop into
the bare `except: pass`, abandoning the rest of the stream. -/
def runEvents (wfail : Nat → Bool) (temp : ℚ) (sim : SimState) (writer : Nat) :
    List (Except Unit SatelMessage) → SimState
  | [] => sim
  | Except.error _ :: _ => sim
  | Except.ok m :: rest => runEvents wfail temp (stepMsg wfail temp sim writer m) writer rest

/-- The `finally` block of `handle_client`: `self.clients.remove(writer)`
and `writer.close()`. -/
def finalizeClient (sim : SimState) (writer : Nat) : SimState :=
  { sim with clients := sim.clients.erase writer, closed := sim.closed ++ [writer] }

/-- The method `handle_client`: register the writer, run the receive loop
until the stream ends or raises, then unregister and close in `finally`. -/
def handle_client (wfail : Nat → Bool) (temp : ℚ) (sim : SimState) (writer : Nat)
    (events : List (Except Unit SatelMessage)) : SimState :=
  finalizeClient
    (runEvents wfail temp { sim with clients := setAdd sim.clients writer } writer events)
    writer

/-- The method `notify_state_change`: encodes the changed items into 4 bytes
and writes the frame to every client, each write wrapped in its own
`try ... except`, so one failure is logged and the loop continues. -/
def notify_state_change (wfail : Nat → Bool) (clients : List Nat)
    (command : SatelCommand) (changed_items : List Nat) : List (Nat × SatelMessage) :=
  let message := SatelMessage.mk command (partition_bytes changed_items 4)
  clients.foldl (fun log c => if wfail c then log else log ++ [(c, message)]) []

/-- Sequential processing of commands `(writer, message)` against the
emulator, as interleaved receive loops would apply them. -/
def runCommands (wfail : Nat → Bool) (temp : ℚ) (sim : SimState) :
    List (Nat × SatelMessage) → SimState
  | [] => sim
  | (w, m) :: rest => runCommands wfail temp (stepMsg wfail temp sim w m) rest

/-- A fresh emulator: no clients, `__init__` device state, nothing sent. -/
def initialSim : SimState :=
  SimState.mk [] initialState [] []

/-- The state snapshot a successful mutating command broadcasts, read from
the given device state: the enabled-output bitmask for the output commands,
the `ARMED_MODE0` partition bitmask for arm/disarm. -/
def stateSnapshotMessage (m : SatelMessage) (st : DeviceState) : SatelMessage :=
  match m.cmd with
  | SatelCommand.CMD_OUTPUT_ON =>
    SatelMessage.mk SatelCommand.OUTPUT_STATE (partition_bytes (activeOutputs st) 4)
  | SatelCommand.CMD_OUTPUT_OFF =>
    SatelMessage.mk SatelCommand.OUTPUT_STATE (partition_bytes (activeOutputs st) 4)
  | _ =>
    SatelMessage.mk SatelCommand.ARMED_MODE0
      (partition_bytes (partitionsWithState st AlarmState.ARMED_MODE0) 4)

/-! Shared lemmas about the embedding. -/

theorem dictGetD_dictSet_self {α : Type} (d : List (Nat × α)) (k : Nat) (v dflt : α) :
    dictGetD (dictSet d k v) k dflt = v := by
  induction d with
  | nil => simp [dictSet, dictGetD]
  | cons kv rest ih =>
    by_cases hk : kv.1 = k
    · simp [dictSet, hk, dictGetD]
    · simp [dictSet, hk, dictGetD, ih]

theorem dictGetD_dictSet_ne {α : Type} (d : List (Nat × α)) (k k' : Nat) (v dflt : α)
    (h : k' ≠ k) : dictGetD (dictSet d k v) k' dflt = dictGetD d k' dflt := by
  induction d with
  | nil => simp [dictSet, dictGetD, Ne.symm h]
  | cons kv rest ih =>
    by_cases hk : kv.1 = k
    · simp [dictSet, hk, dictGetD, Ne.symm h]
    · by_cases hk' : kv.1 = k'
      · simp [dictSet, hk, dictGetD, hk', h]
      · simp [dictSet, hk, dictGetD, hk', ih]

theorem dictGetD_foldl_dictSet_not_mem {α : Type} (v : α) (l : List Nat)
    (d : List (Nat × α)) (p : Nat) (dflt : α) (h : p ∉ l) :
    dictGetD (l.foldl (fun d q => dictSet d q v) d) p dflt = dictGetD d p dflt := by
  induction l generalizing d with
  | nil => rfl
  | cons q rest ih =>
    have hq : p ≠ q := fun hpq => h (by simp [hpq])
    have hrest : p ∉ rest := fun hr => h (by simp [hr])
    rw [List.foldl_cons, ih _ hrest, dictGetD_dictSet_ne _ _ _ _ _ hq]

theorem dictGetD_foldl_dictSet_mem {α : Type} (v : α) (l : List Nat)
    (d : List (Nat × α)) (p : Nat) (dflt : α) (h : p ∈ l) :
    dictGetD (l.foldl (fun d q => dictSet d q v) d) p dflt = v := by
  induction l generalizing d with
  | nil => cases h
  | cons q rest ih =>
    by_cases hr : p ∈ rest
    · rw [List.foldl_cons]; exact ih _ hr
    · have hpq : p = q := by
        rcases List.mem_cons.mp h with h' | h'
        · exact h'
        · exact absurd h' hr
      subst hpq
      rw [List.foldl_cons, dictGetD_foldl_dictSet_not_mem _ _ _ _ _ hr,
        dictGetD_dictSet_self]

theorem dictKeys_dictSet_mem {α : Type} (d : List (Nat × α)) (k : Nat) (v : α) :
    k ∈ dictKeys d → dictKeys (dictSet d k v) = dictKeys d := by
  induction d with
  | nil => intro h; cases h
  | cons kv rest ih =>
    intro h
    by_cases hk : kv.1 = k
    · simp [dictSet, hk, dictKeys]
    · simp only [dictKeys, List.map_cons] at h
      have hrest : k ∈ dictKeys rest := by
        rcases List.mem_cons.mp h with h' | h'
        · exact absurd h'.symm hk
        · exact h'
      simp only [dictSet, hk, if_false, dictKeys, List.map_cons, List.cons.injEq, true_and]
      simpa [dictKeys] using ih hrest

theorem dictKeys_foldl_dictSet {α : Type} (v : α) (l : List Nat) (d : List (Nat × α))
    (h : ∀ p ∈ l, p ∈ dictKeys d) :
    dictKeys (l.foldl (fun d q => dictSet d q v) d) = dictKeys d := by
  induction l generalizing d with
  | nil => rfl
  | cons q rest ih =>
    have hq : q ∈ dictKeys d := h q (by simp)
    have hkeys := dictKeys_dictSet_mem d q v hq
    rw [List.foldl_cons, ih (dictSet d q v) (fun p hp => by rw [hkeys]; exact h p (by simp [hp])),
      hkeys]

theorem mem_list_set_bits_le (m : SatelMessage) (offset length p : Nat)
    (h : p ∈ m.list_set_bits offset length) : 1 ≤ p ∧ p ≤ length := by
  simp only [SatelMessage.list_set_bits, List.mem_filterMap, List.mem_range] at h
  obtain ⟨i, hi, hp⟩ := h
  revert hp
  split
  · intro hp
    injection hp with hp
    omega
  · intro hp
    cases hp

theorem writeSeq_nofail (l : List Nat) (m : SatelMessage) :
    writeSeq (fun _ => false) l m = (l.map fun c => (c, m), false) := by
  induction l with
  | nil => rfl
  | cons w ws ih => simp [writeSeq, ih]

theorem arm_st (wfail : Nat → Bool) (clients : List Nat) (st : DeviceState)
    (m : SatelMessage) :
    (arm wfail clients st m).st = { st with
      partitions := (m.list_set_bits 8 4).foldl
        (fun d p => dictSet d p AlarmState.ARMED_MODE0) st.partitions } := by
  simp only [arm]
  split <;> rfl

theorem disarm_st (wfail : Nat → Bool) (clients : List Nat) (st : DeviceState)
    (m : SatelMessage) :
    (disarm wfail clients st m).st = { st with
      partitions := (m.list_set_bits 8 4).foldl
        (fun d p => dictSet d p AlarmState.DISARMED) st.partitions } := by
  simp only [disarm]
  split <;> rfl

theorem set_output_st (wfail : Nat → Bool) (clients : List Nat) (st : DeviceState)
    (m : SatelMessage) :
    (set_output wfail clients st m).st = { st with
      outputs := (m.list_set_bits 8 32).foldl
        (fun d o => dictSet d o (decide (m.cmd = SatelCommand.CMD_OUTPUT_ON))) st.outputs } := by
  simp only [set_output]
  split <;> rfl

theorem start_monitoring_st (wfail : Nat → Bool) (clients : List Nat) (st : DeviceState)
    (w : Nat) : (start_monitoring wfail clients st w).st = st := by
  simp only [start_monitoring]
  split
  · rfl
  · split <;> rfl

theorem device_info_st (wfail : Nat → Bool) (clients : List Nat) (st : DeviceState)
    (w : Nat) : (device_info wfail clients st w).st = st := rfl

theorem read_temperature_st (wfail : Nat → Bool) (temp : ℚ) (clients : List Nat)
    (st : DeviceState) (m : SatelMessage) (w : Nat) :
    (read_temperature wfail temp clients st m w).st = st := by
  simp only [read_temperature]
  split <;> rfl

theorem process_command_partitions_keys (wfail : Nat → Bool) (temp : ℚ)
    (clients : List Nat) (st : DeviceState) (m : SatelMessage) (w : Nat)
    (h : dictKeys st.partitions = [1, 2, 3, 4]) :
    dictKeys (process_command wfail temp clients st m w).1.partitions = [1, 2, 3, 4] := by
  have hsub : ∀ p ∈ m.list_set_bits 8 4, p ∈ dictKeys st.partitions := by
    intro p hp
    have hb := mem_list_set_bits_le m 8 4 p hp
    rw [h]
    simp only [List.mem_cons, List.mem_singleton]
    omega
  have harm : ∀ a : AlarmState,
      dictKeys ((m.list_set_bits 8 4).foldl (fun d p => dictSet d p a) st.partitions)
        = [1, 2, 3, 4] := by
    intro a
    rw [dictKeys_foldl_dictSet a _ _ hsub, h]
  cases hc : m.cmd <;>
    simp only [process_command, dispatch, hc, start_monitoring_st, device_info_st,
      arm_st, disarm_st, set_output_st, read_temperature_st] <;>
    first
      | exact h
      | exact harm _

theorem runCommands_partitions_keys (wfail : Nat → Bool) (temp : ℚ)
    (cmds : List (Nat × SatelMessage)) (sim : SimState)
    (h : dictKeys sim.st.partitions = [1, 2, 3, 4]) :
    dictKeys (runCommands wfail temp sim cmds).st.partitions = [1, 2, 3, 4] := by
  induction cmds generalizing sim with
  | nil => exact h
  | cons wm rest ih =>
    exact ih (stepMsg wfail temp sim wm.1 wm.2)
      (process_command_partitions_keys wfail temp sim.clients sim.st wm.2 wm.1 h)

theorem runEvents_clients (wfail : Nat → Bool) (temp : ℚ) (w : Nat)
    (events : List (Except Unit SatelMessage)) (sim : SimState) :
    (runEvents wfail temp sim w events).clients = sim.clients := by
  induction events generalizing sim with
  | nil => rfl
  | cons e rest ih =>
    cases e with
    | error e => rfl
    | ok m => exact ih (stepMsg wfail temp sim w m)

theorem runEvents_closed (wfail : Nat → Bool) (temp : ℚ) (w : Nat)
    (events : List (Except Unit SatelMessage)) (sim : SimState) :
    (runEvents wfail temp sim w events).closed = sim.closed := by
  induction events generalizing sim with
  | nil => rfl
  | cons e rest ih =>
    cases e with
    | error e => rfl
    | ok m => exact ih (stepMsg wfail temp sim w m)

theorem runEvents_until_error (wfail : Nat → Bool) (temp : ℚ) (w : Nat)
    (pre : List SatelMessage) (post : List (Except Unit SatelMessage)) (sim : SimState) :
    runEvents wfail temp sim w (pre.map Except.ok ++ Except.error () :: post)
      = runEvents wfail temp sim w (pre.map Except.ok) := by
  induction pre generalizing sim with
  | nil => rfl
  | cons m rest ih => exact ih (stepMsg wfail temp sim w m)

theorem erase_append_singleton (l : List Nat) (me : Nat) (h : me ∉ l) :
    (l ++ [me]).erase me = l := by
  rw [List.erase_append_right _ h, List.erase_cons_head, List.append_nil]

theorem notify_foldl (wfail : Nat → Bool) (msg : SatelMessage) (l : List Nat)
    (acc : List (Nat × SatelMessage)) :
    l.foldl (fun log c => if wfail c then log else log ++ [(c, msg)]) acc
      = acc ++ (l.filter fun c => !wfail c).map fun c => (c, msg) := by
  induction l generalizing acc with
  | nil => simp
  | cons c cs ih =>
    cases hw : wfail c <;> simp [List.filter_cons, hw, ih]

/-! Claim theorems. -/

/-- C1 (amended): for every `CMD_ARM_MODE_k` command (k = 0..3) with a payload
of at least 12 bytes, the handler decodes the partition bitmask at byte
offset 8 with width 4 bits (4 partitions) and sets each addressed partition
to `ARMED_MODE0` regardless of k; every partition not addressed keeps its
prior state. -/
theorem arm_commands_store_mode0 (wfail : Nat → Bool) (temp : ℚ) (clients : List Nat)
    (st : DeviceState) (m : SatelMessage) (writer : Nat)
    (hcmd : m.cmd = SatelCommand.CMD_ARM_MODE_0 ∨ m.cmd = SatelCommand.CMD_ARM_MODE_1 ∨
      m.cmd = SatelCommand.CMD_ARM_MODE_2 ∨ m.cmd = SatelCommand.CMD_ARM_MODE_3)
    (hlen : 12 ≤ m.msg_data.length) :
    (∀ p ∈ m.list_set_bits 8 4,
      dictGetD (dispatch wfail temp clients st m writer).st.partitions p AlarmState.DISARMED
        = AlarmState.ARMED_MODE0)
    ∧ ∀ p, p ∉ m.list_set_bits 8 4 →
      dictGetD (dispatch wfail temp clients st m writer).st.partitions p AlarmState.DISARMED
        = dictGetD st.partitions p AlarmState.DISARMED := by
  have hst : (dispatch wfail temp clients st m writer).st = { st with
      partitions := (m.list_set_bits 8 4).foldl
        (fun d p => dictSet d p AlarmState.ARMED_MODE0) st.partitions } := by
    rcases hcmd with h | h | h | h <;> simp [dispatch, h, arm_st]
  rw [hst]
  constructor
  · intro p hp
    exact dictGetD_foldl_dictSet_mem _ _ _ _ _ hp
  · intro p hp
    exact dictGetD_foldl_dictSet_not_mem _ _ _ _ _ hp

/-- Witness for C1's amended theorem at a concrete `CMD_ARM_MODE_0` message
addressing partition 1 with a 12-byte payload. -/
theorem arm_commands_store_mode0_witness :
    ((SatelMessage.mk SatelCommand.CMD_ARM_MODE_0
        [0, 0, 0, 0, 0, 0, 0, 0, 128, 0, 0, 0]).cmd = SatelCommand.CMD_ARM_MODE_0 ∨
      (SatelMessage.mk SatelCommand.CMD_ARM_MODE_0
        [0, 0, 0, 0, 0, 0, 0, 0, 128, 0, 0, 0]).cmd = SatelCommand.CMD_ARM_MODE_1 ∨
      (SatelMessage.mk SatelCommand.CMD_ARM_MODE_0
        [0, 0, 0, 0, 0, 0, 0, 0, 128, 0, 0, 0]).cmd = SatelCommand.CMD_ARM_MODE_2 ∨
      (SatelMessage.mk SatelCommand.CMD_ARM_MODE_0
        [0, 0, 0, 0, 0, 0, 0, 0, 128, 0, 0, 0]).cmd = SatelCommand.CMD_ARM_MODE_3)
    ∧ 12 ≤ (SatelMessage.mk SatelCommand.CMD_ARM_MODE_0
        [0, 0, 0, 0, 0, 0, 0, 0, 128, 0, 0, 0]).msg_data.length
    ∧ ((∀ p ∈ (SatelMessage.mk SatelCommand.CMD_ARM_MODE_0
          [0, 0, 0, 0, 0, 0, 0, 0, 128, 0, 0, 0]).list_set_bits 8 4,
        dictGetD (dispatch (fun _ => false) 0 [1] initialState
          (SatelMessage.mk SatelCommand.CMD_ARM_MODE_0
            [0, 0, 0, 0, 0, 0, 0, 0, 128, 0, 0, 0]) 1).st.partitions p AlarmState.DISARMED
          = AlarmState.ARMED_MODE0)
      ∧ ∀ p, p ∉ (SatelMessage.mk SatelCommand.CMD_ARM_MODE_0
          [0, 0, 0, 0, 0, 0, 0, 0, 128, 0, 0, 0]).list_set_bits 8 4 →
        dictGetD (dispatch (fun _ => false) 0 [1] initialState
          (SatelMessage.mk SatelCommand.CMD_ARM_MODE_0
            [0, 0, 0, 0, 0, 0, 0, 0, 128, 0, 0, 0]) 1).st.partitions p AlarmState.DISARMED
          = dictGetD initialState.partitions p AlarmState.DISARMED) :=
  ⟨Or.inl rfl, by decide,
    arm_commands_store_mode0 (fun _ => false) 0 [1] initialState
      (SatelMessage.mk SatelCommand.CMD_ARM_MODE_0
        [0, 0, 0, 0, 0, 0, 0, 0, 128, 0, 0, 0]) 1 (Or.inl rfl) (by decide)⟩

/-- Counterexample to C1 as stated: a `CMD_ARM_MODE_1` command addressing
partition 1 (12-byte payload, bit 1 of the bitmask set) stores
`ARMED_MODE0`, not `ARMED_MODE1`, so the stored mode does not match the k
of the command received. -/
theorem arm_mode1_counterexample :
    dictGetD (dispatch (fun _ => false) 0 [1] initialState
      (SatelMessage.mk SatelCommand.CMD_ARM_MODE_1
        [0, 0, 0, 0, 0, 0, 0, 0, 128, 0, 0, 0]) 1).st.partitions 1 AlarmState.DISARMED
      = AlarmState.ARMED_MODE0
    ∧ AlarmState.ARMED_MODE0 ≠ AlarmState.ARMED_MODE1 := by
  decide

/-- C2 (amended): for every successfully handled mutating command the OK
result frame is broadcast to every registered client — the handlers never
pass the sending client to `send_response` — followed by the state snapshot,
also broadcast to every client. -/
theorem mutating_ok_broadcast_to_all (temp : ℚ) (clients : List Nat) (st : DeviceState)
    (m : SatelMessage) (writer : Nat)
    (h : m.cmd = SatelCommand.CMD_ARM_MODE_0 ∨ m.cmd = SatelCommand.CMD_ARM_MODE_1 ∨
      m.cmd = SatelCommand.CMD_ARM_MODE_2 ∨ m.cmd = SatelCommand.CMD_ARM_MODE_3 ∨
      m.cmd = SatelCommand.CMD_DISARM ∨ m.cmd = SatelCommand.CMD_OUTPUT_ON ∨
      m.cmd = SatelCommand.CMD_OUTPUT_OFF) :
    (dispatch (fun _ => false) temp clients st m writer).sent
      = (clients.map fun c => (c, RESPONSE_OK))
        ++ (clients.map fun c =>
          (c, stateSnapshotMessage m (dispatch (fun _ => false) temp clients st m writer).st)) := by
  rcases h with h | h | h | h | h | h | h <;>
    simp [dispatch, h, arm, disarm, set_output, send_response, writeSeq_nofail,
      broadcast_partitions, broadcast_outputs, ALARMSTATE_TO_CMD, stateSnapshotMessage]

/-- Witness for C2's amended theorem at a concrete `CMD_DISARM` message with
two registered clients. -/
theorem mutating_ok_broadcast_to_all_witness :
    ((SatelMessage.mk SatelCommand.CMD_DISARM
        [0, 0, 0, 0, 0, 0, 0, 0, 128, 0, 0, 0]).cmd = SatelCommand.CMD_ARM_MODE_0 ∨
      (SatelMessage.mk SatelCommand.CMD_DISARM
        [0, 0, 0, 0, 0, 0, 0, 0, 128, 0, 0, 0]).cmd = SatelCommand.CMD_ARM_MODE_1 ∨
      (SatelMessage.mk SatelCommand.CMD_DISARM
        [0, 0, 0, 0, 0, 0, 0, 0, 128, 0, 0, 0]).cmd = SatelCommand.CMD_ARM_MODE_2 ∨
      (SatelMessage.mk SatelCommand.CMD_DISARM
        [0, 0, 0, 0, 0, 0, 0, 0, 128, 0, 0, 0]).cmd = SatelCommand.CMD_ARM_MODE_3 ∨
      (SatelMessage.mk SatelCommand.CMD_DISARM
        [0, 0, 0, 0, 0, 0, 0, 0, 128, 0, 0, 0]).cmd = SatelCommand.CMD_DISARM ∨
      (SatelMessage.mk SatelCommand.CMD_DISARM
        [0, 0, 0, 0, 0, 0, 0, 0, 128, 0, 0, 0]).cmd = SatelCommand.CMD_OUTPUT_ON ∨
      (SatelMessage.mk SatelCommand.CMD_DISARM
        [0, 0, 0, 0, 0, 0, 0, 0, 128, 0, 0, 0]).cmd = SatelCommand.CMD_OUTPUT_OFF)
    ∧ (dispatch (fun _ => false) 0 [1, 2] initialState
        (SatelMessage.mk SatelCommand.CMD_DISARM
          [0, 0, 0, 0, 0, 0, 0, 0, 128, 0, 0, 0]) 1).sent
      = (([1, 2] : List Nat).map fun c => (c, RESPONSE_OK))
        ++ (([1, 2] : List Nat).map fun c =>
          (c, stateSnapshotMessage
            (SatelMessage.mk SatelCommand.CMD_DISARM
              [0, 0, 0, 0, 0, 0, 0, 0, 128, 0, 0, 0])
            (dispatch (fun _ => false) 0 [1, 2] initialState
              (SatelMessage.mk SatelCommand.CMD_DISARM
                [0, 0, 0, 0, 0, 0, 0, 0, 128, 0, 0, 0]) 1).st)) :=
  ⟨Or.inr (Or.inr (Or.inr (Or.inr (Or.inl rfl)))),
    mutating_ok_broadcast_to_all 0 [1, 2] initialState
      (SatelMessage.mk SatelCommand.CMD_DISARM
        [0, 0, 0, 0, 0, 0, 0, 0, 128, 0, 0, 0]) 1
      (Or.inr (Or.inr (Or.inr (Or.inr (Or.inl rfl)))))⟩

/-- Counterexample to C2 as stated: with clients {1, 2} and client 1 the
sender of a successfully handled `CMD_ARM_MODE_0`, the OK result frame is
also delivered to client 2, which is not the sender — the OK is a
broadcast, not a unicast to the sender. -/
theorem ok_response_reaches_nonsender_counterexample :
    (2, RESPONSE_OK) ∈ (dispatch (fun _ => false) 0 [1, 2] initialState
      (SatelMessage.mk SatelCommand.CMD_ARM_MODE_0
        [0, 0, 0, 0, 0, 0, 0, 0, 128, 0, 0, 0]) 1).sent
    ∧ (2 : Nat) ≠ 1 := by
  decide

/-- C3 (amended): the partition map's keys are exactly [1, 4] after any
sequence of processed commands, and the decoded partition bitmask can only
ever address indices 1..4 — bits beyond the fourth are never decoded, so a
command with them set is silently ignored rather than failing. -/
theorem partition_indices_always_in_range (wfail : Nat → Bool) (temp : ℚ)
    (cmds : List (Nat × SatelMessage)) :
    dictKeys (runCommands wfail temp initialSim cmds).st.partitions = [1, 2, 3, 4]
    ∧ ∀ m : SatelMessage, ∀ p ∈ m.list_set_bits 8 4, p = 1 ∨ p = 2 ∨ p = 3 ∨ p = 4 := by
  constructor
  · exact runCommands_partitions_keys wfail temp cmds initialSim (by decide)
  · intro m p hp
    have := mem_list_set_bits_le m 8 4 p hp
    omega

/-- Counterexample to C3's fail-fast clause: a `CMD_ARM_MODE_0` whose byte
at offset 8 has only the bit that a 4-byte-wide read would map to partition
index 5 completes without error (nothing fails fast) and leaves the
partition map untouched. -/
theorem arm_out_of_range_bits_ignored :
    (dispatch (fun _ => false) 0 [1] initialState
      (SatelMessage.mk SatelCommand.CMD_ARM_MODE_0
        [0, 0, 0, 0, 0, 0, 0, 0, 8, 0, 0, 0]) 1).err = false
    ∧ (dispatch (fun _ => false) 0 [1] initialState
      (SatelMessage.mk SatelCommand.CMD_ARM_MODE_0
        [0, 0, 0, 0, 0, 0, 0, 0, 8, 0, 0, 0]) 1).st.partitions
      = initialState.partitions := by
  decide

/-- C4 (amended): `notify_state_change` wraps each client write in its own
handler, so a failing client is skipped and every non-failing client still
receives the frame; the broadcasts the command handlers actually perform go
through `send_response`, which stops at the first failing client instead. -/
theorem notify_state_change_delivers_to_remaining (wfail : Nat → Bool)
    (clients : List Nat) (command : SatelCommand) (changed_items : List Nat) :
    notify_state_change wfail clients command changed_items
      = (clients.filter fun c => !wfail c).map
          fun c => (c, SatelMessage.mk command (partition_bytes changed_items 4)) := by
  simp only [notify_state_change, notify_foldl, List.nil_append]

/-- Counterexample to C4 as stated for the broadcast path the commands use:
with registered clients {1, 2, 3} and a write failure on client 2 only, the
`send_response` broadcast delivers the frame to client 1 and then aborts, so
the remaining non-failing client 3 never receives it. -/
theorem broadcast_stops_at_failed_client_counterexample :
    send_response (fun c => decide (c = 2)) [1, 2, 3] RESPONSE_OK none
      = ([(1, RESPONSE_OK)], true)
    ∧ (3, RESPONSE_OK) ∉ (send_response (fun c => decide (c = 2)) [1, 2, 3]
        RESPONSE_OK none).1 := by
  decide

/-- C5 (amended): an exception raised while a handler runs is caught at the
`process_command` boundary — the receive loop goes on with the next event,
the connection stays registered and open, and the command's effects are
exactly the partial state mutations and writes performed before the
failure (frames already written, including a possibly delivered OK
response, are not rolled back, and nothing further is sent). -/
theorem handler_error_caught_loop_continues (wfail : Nat → Bool) (temp : ℚ)
    (sim : SimState) (writer : Nat) (m : SatelMessage)
    (rest : List (Except Unit SatelMessage)) :
    runEvents wfail temp sim writer (Except.ok m :: rest)
      = runEvents wfail temp (stepMsg wfail temp sim writer m) writer rest
    ∧ (stepMsg wfail temp sim writer m).clients = sim.clients
    ∧ (stepMsg wfail temp sim writer m).closed = sim.closed
    ∧ (stepMsg wfail temp sim writer m).st
      = (dispatch wfail temp sim.clients sim.st m writer).st
    ∧ (stepMsg wfail temp sim writer m).sent
      = sim.sent ++ (dispatch wfail temp sim.clients sim.st m writer).sent :=
  ⟨rfl, rfl, rfl, rfl, rfl⟩

/-- Counterexample to C5's no-response clause: clients {1, 2}, client 1
sends `CMD_ARM_MODE_0`, and the write to client 2 raises.  The handler
fails (the error is caught at the dispatch boundary), yet the OK response
frame had already been delivered to the sender, client 1. -/
theorem failing_command_already_responded_counterexample :
    (dispatch (fun c => decide (c = 2)) 0 [1, 2] initialState
      (SatelMessage.mk SatelCommand.CMD_ARM_MODE_0
        [0, 0, 0, 0, 0, 0, 0, 0, 128, 0, 0, 0]) 1).err = true
    ∧ (1, RESPONSE_OK) ∈ (dispatch (fun c => decide (c = 2)) 0 [1, 2] initialState
      (SatelMessage.mk SatelCommand.CMD_ARM_MODE_0
        [0, 0, 0, 0, 0, 0, 0, 0, 128, 0, 0, 0]) 1).sent := by
  decide

/-- C6: a read error, decode error or peer close ends the connection's
receive loop; the client is then unregistered (the client set returns to
what it was before the connection) and its socket closed, nothing is sent
for the failing read and later stream content is never processed, and the
device state and deliveries are exactly those of the messages before the
error. -/
theorem connection_error_unregisters_and_closes (wfail : Nat → Bool) (temp : ℚ)
    (sim : SimState) (me : Nat) (pre : List SatelMessage)
    (post : List (Except Unit SatelMessage)) (h : me ∉ sim.clients) :
    (handle_client wfail temp sim me
        (pre.map Except.ok ++ Except.error () :: post)).clients = sim.clients
    ∧ me ∉ (handle_client wfail temp sim me
        (pre.map Except.ok ++ Except.error () :: post)).clients
    ∧ (handle_client wfail temp sim me
        (pre.map Except.ok ++ Except.error () :: post)).closed = sim.closed ++ [me]
    ∧ (handle_client wfail temp sim me
        (pre.map Except.ok ++ Except.error () :: post)).sent
      = (runEvents wfail temp { sim with clients := setAdd sim.clients me } me
          (pre.map Except.ok)).sent
    ∧ (handle_client wfail temp sim me
        (pre.map Except.ok ++ Except.error () :: post)).st
      = (runEvents wfail temp { sim with clients := setAdd sim.clients me } me
          (pre.map Except.ok)).st := by
  have hadd : setAdd sim.clients me = sim.clients ++ [me] := by
    simp [setAdd, h]
  have hcl : (runEvents wfail temp { sim with clients := setAdd sim.clients me } me
      (pre.map Except.ok)).clients = sim.clients ++ [me] := by
    rw [runEvents_clients]
    exact hadd
  have hcls : (runEvents wfail temp { sim with clients := setAdd sim.clients me } me
      (pre.map Except.ok)).closed = sim.closed := by
    rw [runEvents_closed]
  have key : handle_client wfail temp sim me (pre.map Except.ok ++ Except.error () :: post)
      = finalizeClient (runEvents wfail temp { sim with clients := setAdd sim.clients me }
          me (pre.map Except.ok)) me := by
    simp only [handle_client, runEvents_until_error]
  rw [key]
  refine ⟨?_, ?_, ?_, rfl, rfl⟩
  · show (runEvents wfail temp { sim with clients := setAdd sim.clients me } me
      (pre.map Except.ok)).clients.erase me = sim.clients
    rw [hcl]
    exact erase_append_singleton _ _ h
  · show me ∉ (runEvents wfail temp { sim with clients := setAdd sim.clients me } me
      (pre.map Except.ok)).clients.erase me
    rw [hcl, erase_append_singleton _ _ h]
    exact h
  · show (runEvents wfail temp { sim with clients := setAdd sim.clients me } me
      (pre.map Except.ok)).closed ++ [me] = sim.closed ++ [me]
    rw [hcls]

/-- Witness for C6 at a concrete fresh emulator: client 1 connects, the
first read immediately fails, and the cleanup runs. -/
theorem connection_error_unregisters_and_closes_witness :
    (1 : Nat) ∉ initialSim.clients
    ∧ ((handle_client (fun _ => false) 0 initialSim 1
          (([] : List SatelMessage).map Except.ok ++ Except.error () :: [])).clients
        = initialSim.clients
      ∧ (1 : Nat) ∉ (handle_client (fun _ => false) 0 initialSim 1
          (([] : List SatelMessage).map Except.ok ++ Except.error () :: [])).clients
      ∧ (handle_client (fun _ => false) 0 initialSim 1
          (([] : List SatelMessage).map Except.ok ++ Except.error () :: [])).closed
        = initialSim.closed ++ [1]
      ∧ (handle_client (fun _ => false) 0 initialSim 1
          (([] : List SatelMessage).map Except.ok ++ Except.error () :: [])).sent
        = (runEvents (fun _ => false) 0
            { initialSim with clients := setAdd initialSim.clients 1 } 1
            (([] : List SatelMessage).map Except.ok)).sent
      ∧ (handle_client (fun _ => false) 0 initialSim 1
          (([] : List SatelMessage).map Except.ok ++ Except.error () :: [])).st
        = (runEvents (fun _ => false) 0
            { initialSim with clients := setAdd initialSim.clients 1 } 1
            (([] : List SatelMessage).map Except.ok)).st) :=
  ⟨by decide,
    connection_error_unregisters_and_closes (fun _ => false) 0 initialSim 1 [] []
      (by decide)⟩

/-- C7 (amended): for a `CMD_READ_ZONE_TEMP` with at least one payload byte
and a drawn celsius value in [21, 24], the temperature byte of the
`ZONE_TEMP` response equals `int((celsius + 55) * 2)` — Python truncation,
not rounding — and consequently always lies in [152, 158]. -/
theorem read_zone_temp_truncated_in_bounds (temp : ℚ) (clients : List Nat)
    (st : DeviceState) (writer z : Nat) (rest : List Nat)
    (h1 : 21 ≤ temp) (h2 : temp ≤ 24) :
    152 ≤ (pyInt ((temp + 55) * 2)).toNat
    ∧ (pyInt ((temp + 55) * 2)).toNat ≤ 158
    ∧ (dispatch (fun _ => false) temp clients st
        (SatelMessage.mk SatelCommand.CMD_READ_ZONE_TEMP (z :: rest)) writer).sent
      = [(writer, SatelMessage.mk SatelCommand.ZONE_TEMP
          [z, 0, (pyInt ((temp + 55) * 2)).toNat])] := by
  have h0 : (0 : ℚ) ≤ (temp + 55) * 2 := by linarith
  have hpy : pyInt ((temp + 55) * 2) = ⌊(temp + 55) * 2⌋ := by
    simp [pyInt, h0]
  have hlow : (152 : ℤ) ≤ ⌊(temp + 55) * 2⌋ := by
    apply Int.le_floor.mpr
    push_cast
    linarith
  have hhigh : ⌊(temp + 55) * 2⌋ ≤ (158 : ℤ) := by
    have hle : ((temp + 55) * 2 : ℚ) ≤ ((158 : ℤ) : ℚ) := by push_cast; linarith
    calc ⌊(temp + 55) * 2⌋ ≤ ⌊((158 : ℤ) : ℚ)⌋ := Int.floor_le_floor hle
    _ = 158 := Int.floor_intCast 158
  refine ⟨?_, ?_, ?_⟩
  · rw [hpy]; omega
  · rw [hpy]; omega
  · simp [dispatch, read_temperature, send_response, writeSeq]

/-- Witness for C7's amended theorem at celsius 22. -/
theorem read_zone_temp_truncated_in_bounds_witness :
    (21 : ℚ) ≤ 22 ∧ (22 : ℚ) ≤ 24
    ∧ (152 ≤ (pyInt (((22 : ℚ) + 55) * 2)).toNat
      ∧ (pyInt (((22 : ℚ) + 55) * 2)).toNat ≤ 158
      ∧ (dispatch (fun _ => false) 22 [1] initialState
          (SatelMessage.mk SatelCommand.CMD_READ_ZONE_TEMP (7 :: [])) 1).sent
        = [(1, SatelMessage.mk SatelCommand.ZONE_TEMP
            [7, 0, (pyInt (((22 : ℚ) + 55) * 2)).toNat])]) :=
  ⟨by norm_num, by norm_num,
    read_zone_temp_truncated_in_bounds 22 [1] initialState 1 7 []
      (by norm_num) (by norm_num)⟩

/-- Counterexample to C7 as stated: at celsius 21.35 (in [21, 24]) the code
emits byte 152 = int(152.7), while the claimed formula round((21.35+55)*2)
gives 153. -/
theorem temperature_byte_not_rounded_counterexample :
    (21 : ℚ) ≤ 427 / 20 ∧ (427 / 20 : ℚ) ≤ 24
    ∧ (dispatch (fun _ => false) (427 / 20) [1] initialState
        (SatelMessage.mk SatelCommand.CMD_READ_ZONE_TEMP [7]) 1).sent
      = [(1, SatelMessage.mk SatelCommand.ZONE_TEMP [7, 0, 152])]
    ∧ round (((427 : ℚ) / 20 + 55) * 2) = 153
    ∧ (152 : ℕ) ≠ 153 := by
  have h0 : (0 : ℚ) ≤ ((427 : ℚ) / 20 + 55) * 2 := by norm_num
  have hf : ⌊(((427 : ℚ) / 20 + 55) * 2)⌋ = 152 := by
    rw [Int.floor_eq_iff] <;> norm_num
  have hb : (pyInt (((427 : ℚ) / 20 + 55) * 2)).toNat = 152 := by
    simp [pyInt, h0, hf]
  have hr : round (((427 : ℚ) / 20 + 55) * 2) = 153 := by
    rw [round_eq, Int.floor_eq_iff] <;> norm_num
  refine ⟨by norm_num, by norm_num, ?_, hr, by norm_num⟩
  simp [dispatch, read_temperature, send_response, writeSeq, hb]

/-- C8: every successful mutating command (`CMD_ARM_MODE_0..3`, `CMD_DISARM`,
`CMD_OUTPUT_ON`, `CMD_OUTPUT_OFF`) performs all of its state mutations
before constructing the broadcast frame: the snapshot broadcast to every
client is built from the post-mutation device state — the `ARMED_MODE0`
partition bitmask for arm/disarm, the enabled-output bitmask for the output
commands — never from a partial or stale one; in particular, `OUTPUT_ON`
selecting {5, 20} followed by `OUTPUT_OFF` selecting {5} broadcasts a
bitmask that lists exactly [20]. -/
theorem mutating_broadcast_reflects_post_state (temp : ℚ) (clients : List Nat)
    (st : DeviceState) (m : SatelMessage) (writer : Nat)
    (h : m.cmd = SatelCommand.CMD_ARM_MODE_0 ∨ m.cmd = SatelCommand.CMD_ARM_MODE_1 ∨
      m.cmd = SatelCommand.CMD_ARM_MODE_2 ∨ m.cmd = SatelCommand.CMD_ARM_MODE_3 ∨
      m.cmd = SatelCommand.CMD_DISARM ∨ m.cmd = SatelCommand.CMD_OUTPUT_ON ∨
      m.cmd = SatelCommand.CMD_OUTPUT_OFF) :
    (dispatch (fun _ => false) temp clients st m writer).sent
      = (clients.map fun c => (c, RESPONSE_OK))
        ++ (clients.map fun c =>
          (c, stateSnapshotMessage m
            (dispatch (fun _ => false) temp clients st m writer).st))
    ∧ (runCommands (fun _ => false) 0 (SimState.mk [1] initialState [] [])
        [(1, SatelMessage.mk SatelCommand.CMD_OUTPUT_ON
            [0, 0, 0, 0, 0, 0, 0, 0, 8, 0, 16, 0]),
         (1, SatelMessage.mk SatelCommand.CMD_OUTPUT_OFF
            [0, 0, 0, 0, 0, 0, 0, 0, 8, 0, 0, 0])]).sent
      = [(1, RESPONSE_OK),
         (1, SatelMessage.mk SatelCommand.OUTPUT_STATE [8, 0, 16, 0]),
         (1, RESPONSE_OK),
         (1, SatelMessage.mk SatelCommand.OUTPUT_STATE [0, 0, 16, 0])]
    ∧ activeOutputs (runCommands (fun _ => false) 0 (SimState.mk [1] initialState [] [])
        [(1, SatelMessage.mk SatelCommand.CMD_OUTPUT_ON
            [0, 0, 0, 0, 0, 0, 0, 0, 8, 0, 16, 0]),
         (1, SatelMessage.mk SatelCommand.CMD_OUTPUT_OFF
            [0, 0, 0, 0, 0, 0, 0, 0, 8, 0, 0, 0])]).st = [20]
    ∧ (SatelMessage.mk SatelCommand.OUTPUT_STATE [0, 0, 16, 0]).list_set_bits 0 32
      = [20] := by
  refine ⟨?_, by decide, by decide, by decide⟩
  rcases h with h | h | h | h | h | h | h <;>
    simp [dispatch, h, arm, disarm, set_output, send_response, writeSeq_nofail,
      broadcast_partitions, broadcast_outputs, ALARMSTATE_TO_CMD, stateSnapshotMessage]

/-- Witness for C8's theorem at a concrete `CMD_ARM_MODE_0` addressing
partition 1, with two registered clients. -/
theorem mutating_broadcast_reflects_post_state_witness :
    ((SatelMessage.mk SatelCommand.CMD_ARM_MODE_0
        [0, 0, 0, 0, 0, 0, 0, 0, 128, 0, 0, 0]).cmd = SatelCommand.CMD_ARM_MODE_0 ∨
      (SatelMessage.mk SatelCommand.CMD_ARM_MODE_0
        [0, 0, 0, 0, 0, 0, 0, 0, 128, 0, 0, 0]).cmd = SatelCommand.CMD_ARM_MODE_1 ∨
      (SatelMessage.mk SatelCommand.CMD_ARM_MODE_0
        [0, 0, 0, 0, 0, 0, 0, 0, 128, 0, 0, 0]).cmd = SatelCommand.CMD_ARM_MODE_2 ∨
      (SatelMessage.mk SatelCommand.CMD_ARM_MODE_0
        [0, 0, 0, 0, 0, 0, 0, 0, 128, 0, 0, 0]).cmd = SatelCommand.CMD_ARM_MODE_3 ∨
      (SatelMessage.mk SatelCommand.CMD_ARM_MODE_0
        [0, 0, 0, 0, 0, 0, 0, 0, 128, 0, 0, 0]).cmd = SatelCommand.CMD_DISARM ∨
      (SatelMessage.mk SatelCommand.CMD_ARM_MODE_0
        [0, 0, 0, 0, 0, 0, 0, 0, 128, 0, 0, 0]).cmd = SatelCommand.CMD_OUTPUT_ON ∨
      (SatelMessage.mk SatelCommand.CMD_ARM_MODE_0
        [0, 0, 0, 0, 0, 0, 0, 0, 128, 0, 0, 0]).cmd = SatelCommand.CMD_OUTPUT_OFF)
    ∧ ((dispatch (fun _ => false) 0 [1, 2] initialState
        (SatelMessage.mk SatelCommand.CMD_ARM_MODE_0
          [0, 0, 0, 0, 0, 0, 0, 0, 128, 0, 0, 0]) 1).sent
      = (([1, 2] : List Nat).map fun c => (c, RESPONSE_OK))
        ++ (([1, 2] : List Nat).map fun c =>
          (c, stateSnapshotMessage
            (SatelMessage.mk SatelCommand.CMD_ARM_MODE_0
              [0, 0, 0, 0, 0, 0, 0, 0, 128, 0, 0, 0])
            (dispatch (fun _ => false) 0 [1, 2] initialState
              (SatelMessage.mk SatelCommand.CMD_ARM_MODE_0
                [0, 0, 0, 0, 0, 0, 0, 0, 128, 0, 0, 0]) 1).st))
      ∧ (runCommands (fun _ => false) 0 (SimState.mk [1] initialState [] [])
          [(1, SatelMessage.mk SatelCommand.CMD_OUTPUT_ON
              [0, 0, 0, 0, 0, 0, 0, 0, 8, 0, 16, 0]),
           (1, SatelMessage.mk SatelCommand.CMD_OUTPUT_OFF
              [0, 0, 0, 0, 0, 0, 0, 0, 8, 0, 0, 0])]).sent
        = [(1, RESPONSE_OK),
           (1, SatelMessage.mk SatelCommand.OUTPUT_STATE [8, 0, 16, 0]),
           (1, RESPONSE_OK),
           (1, SatelMessage.mk SatelCommand.OUTPUT_STATE [0, 0, 16, 0])]
      ∧ activeOutputs (runCommands (fun _ => false) 0 (SimState.mk [1] initialState [] [])
          [(1, SatelMessage.mk SatelCommand.CMD_OUTPUT_ON
              [0, 0, 0, 0, 0, 0, 0, 0, 8, 0, 16, 0]),
           (1, SatelMessage.mk SatelCommand.CMD_OUTPUT_OFF
              [0, 0, 0, 0, 0, 0, 0, 0, 8, 0, 0, 0])]).st = [20]
      ∧ (SatelMessage.mk SatelCommand.OUTPUT_STATE [0, 0, 16, 0]).list_set_bits 0 32
        = [20]) :=
  ⟨Or.inl rfl,
    mutating_broadcast_reflects_post_state 0 [1, 2] initialState
      (SatelMessage.mk SatelCommand.CMD_ARM_MODE_0
        [0, 0, 0, 0, 0, 0, 0, 0, 128, 0, 0, 0]) 1 (Or.inl rfl)⟩

/-- C9: an output command whose bitmask decodes to exactly {5, 20} sets
outputs 5 and 20 to the commanded value and leaves every other output, all
zones and all partitions exactly as they were. -/
theorem output_toggle_isolated (wfail : Nat → Bool) (temp : ℚ) (clients : List Nat)
    (st : DeviceState) (m : SatelMessage) (writer : Nat)
    (hcmd : m.cmd = SatelCommand.CMD_OUTPUT_ON ∨ m.cmd = SatelCommand.CMD_OUTPUT_OFF)
    (hbits : m.list_set_bits 8 32 = [5, 20]) :
    (∀ j, j ≠ 5 → j ≠ 20 →
      dictGetD (dispatch wfail temp clients st m writer).st.outputs j false
        = dictGetD st.outputs j false)
    ∧ dictGetD (dispatch wfail temp clients st m writer).st.outputs 5 false
      = decide (m.cmd = SatelCommand.CMD_OUTPUT_ON)
    ∧ dictGetD (dispatch wfail temp clients st m writer).st.outputs 20 false
      = decide (m.cmd = SatelCommand.CMD_OUTPUT_ON)
    ∧ (dispatch wfail temp clients st m writer).st.zones = st.zones
    ∧ (dispatch wfail temp clients st m writer).st.partitions = st.partitions := by
  have hst : (dispatch wfail temp clients st m writer).st = { st with
      outputs := ([5, 20] : List Nat).foldl
        (fun d o => dictSet d o (decide (m.cmd = SatelCommand.CMD_OUTPUT_ON)))
        st.outputs } := by
    rcases hcmd with h | h <;> simp [dispatch, h, set_output_st, hbits]
  rw [hst]
  refine ⟨?_, ?_, ?_, rfl, rfl⟩
  · intro j hj5 hj20
    exact dictGetD_foldl_dictSet_not_mem _ _ _ _ _ (by simp [hj5, hj20])
  · exact dictGetD_foldl_dictSet_mem _ _ _ _ _ (by simp)
  · exact dictGetD_foldl_dictSet_mem _ _ _ _ _ (by simp)

/-- Witness for C9's theorem at a concrete `CMD_OUTPUT_OFF` selecting
{5, 20} from the initial state. -/
theorem output_toggle_isolated_witness :
    ((SatelMessage.mk SatelCommand.CMD_OUTPUT_OFF
        [0, 0, 0, 0, 0, 0, 0, 0, 8, 0, 16, 0]).cmd = SatelCommand.CMD_OUTPUT_ON ∨
      (SatelMessage.mk SatelCommand.CMD_OUTPUT_OFF
        [0, 0, 0, 0, 0, 0, 0, 0, 8, 0, 16, 0]).cmd = SatelCommand.CMD_OUTPUT_OFF)
    ∧ (SatelMessage.mk SatelCommand.CMD_OUTPUT_OFF
        [0, 0, 0, 0, 0, 0, 0, 0, 8, 0, 16, 0]).list_set_bits 8 32 = [5, 20]
    ∧ ((∀ j, j ≠ 5 → j ≠ 20 →
        dictGetD (dispatch (fun _ => false) 0 [1] initialState
          (SatelMessage.mk SatelCommand.CMD_OUTPUT_OFF
            [0, 0, 0, 0, 0, 0, 0, 0, 8, 0, 16, 0]) 1).st.outputs j false
          = dictGetD initialState.outputs j false)
      ∧ dictGetD (dispatch (fun _ => false) 0 [1] initialState
          (SatelMessage.mk SatelCommand.CMD_OUTPUT_OFF
            [0, 0, 0, 0, 0, 0, 0, 0, 8, 0, 16, 0]) 1).st.outputs 5 false
        = decide ((SatelMessage.mk SatelCommand.CMD_OUTPUT_OFF
            [0, 0, 0, 0, 0, 0, 0, 0, 8, 0, 16, 0]).cmd = SatelCommand.CMD_OUTPUT_ON)
      ∧ dictGetD (dispatch (fun _ => false) 0 [1] initialState
          (SatelMessage.mk SatelCommand.CMD_OUTPUT_OFF
            [0, 0, 0, 0, 0, 0, 0, 0, 8, 0, 16, 0]) 1).st.outputs 20 false
        = decide ((SatelMessage.mk SatelCommand.CMD_OUTPUT_OFF
            [0, 0, 0, 0, 0, 0, 0, 0, 8, 0, 16, 0]).cmd = SatelCommand.CMD_OUTPUT_ON)
      ∧ (dispatch (fun _ => false) 0 [1] initialState
          (SatelMessage.mk SatelCommand.CMD_OUTPUT_OFF
            [0, 0, 0, 0, 0, 0, 0, 0, 8, 0, 16, 0]) 1).st.zones = initialState.zones
      ∧ (dispatch (fun _ => false) 0 [1] initialState
          (SatelMessage.mk SatelCommand.CMD_OUTPUT_OFF
            [0, 0, 0, 0, 0, 0, 0, 0, 8, 0, 16, 0]) 1).st.partitions
        = initialState.partitions) :=
  ⟨Or.inr rfl, by decide,
    output_toggle_isolated (fun _ => false) 0 [1] initialState
      (SatelMessage.mk SatelCommand.CMD_OUTPUT_OFF
        [0, 0, 0, 0, 0, 0, 0, 0, 8, 0, 16, 0]) 1 (Or.inr rfl) (by decide)⟩

/-- C10: the `ZONE_TEMP` response to a `CMD_READ_ZONE_TEMP` with nonempty
payload has exactly the 3-byte payload [zone, 0, encoded temperature] with
the zone byte echoed from the request's first payload byte, and the handler
leaves the device state untouched. -/
theorem read_zone_temp_response_shape (wfail : Nat → Bool) (temp : ℚ)
    (clients : List Nat) (st : DeviceState) (writer z : Nat) (rest : List Nat) :
    (dispatch wfail temp clients st
        (SatelMessage.mk SatelCommand.CMD_READ_ZONE_TEMP (z :: rest)) writer).st = st
    ∧ (dispatch wfail temp clients st
        (SatelMessage.mk SatelCommand.CMD_READ_ZONE_TEMP (z :: rest)) writer).sent
      = (if wfail writer then []
        else [(writer, SatelMessage.mk SatelCommand.ZONE_TEMP
          [z, 0, (pyInt ((temp + 55) * 2)).toNat])]) := by
  constructor
  · rfl
  · by_cases hw : wfail writer <;>
      simp [dispatch, read_temperature, send_response, writeSeq, hw]
